import Mathlib

/-!
Verification of the AthenaConcierge backend skeleton.

The development shallowly embeds the three source files:
  * `backend/app/config.py`            — the pydantic `Settings` record,
  * `backend/app/integrations/slack_bot.py` — the `handle_message` handler,
  * `backend/app/main.py`              — the FastAPI app with `/` and `/health`.

Python values that may be `None` are modelled by `PyVal`; environments and
override ( `.env` ) files are partial maps `String → Option String`; side
effects of the Slack handler are reified as a list of `Effect`s.
-/

namespace AthenaConcierge

/-! ## Configuration (`backend/app/config.py`) -/

/-- The `Settings` record of `config.py`.  Every field is declared with a
string default in the source ( `Optional[str] = ""` or a literal ), so a
record loaded from an environment always holds plain strings. -/
structure Settings where
  SUPABASE_URL : String
  SUPABASE_SERVICE_KEY : String
  DATABASE_URL : String
  ANTHROPIC_API_KEY : String
  SLACK_BOT_TOKEN : String
  SLACK_APP_TOKEN : String
  SLACK_SIGNING_SECRET : String
  AWS_ACCESS_KEY_ID : String
  AWS_SECRET_ACCESS_KEY : String
  AWS_REGION : String
  SES_EMAIL_ADDRESS : String
  SECRET_KEY : String
  ENVIRONMENT : String
  deriving Repr, DecidableEq

/-- An environment (or an `.env` override file): a partial map from variable
names to string values. -/
def Env : Type := String → Option String

/-- The empty environment: no variable is set. -/
def noEnv : Env := fun _ => none

/-- The environment that sets exactly one variable `k` to `v`. -/
def singleEnv (k v : String) : Env := fun x => if x = k then some v else none

/-- pydantic-settings source precedence for this configuration
( `model_config = {"env_file": ".env", "case_sensitive": True}` ):
a process environment variable wins over the `.env` file entry, which wins
over the compiled-in default.  Key matching is exact ( `case_sensitive` ). -/
def lookupSetting (env file : Env) (k : String) : Option String :=
  match env k with
  | some v => some v
  | none => file k

/-- `Settings()` — constructing the record from the process environment `env`
and the override file `file`.  Each field reads its own exact-case key and
falls back to the default written in `config.py`. -/
def loadSettings (env file : Env) : Settings :=
  { SUPABASE_URL := (lookupSetting env file "SUPABASE_URL").getD ""
    SUPABASE_SERVICE_KEY := (lookupSetting env file "SUPABASE_SERVICE_KEY").getD ""
    DATABASE_URL := (lookupSetting env file "DATABASE_URL").getD "sqlite:///./test.db"
    ANTHROPIC_API_KEY := (lookupSetting env file "ANTHROPIC_API_KEY").getD ""
    SLACK_BOT_TOKEN := (lookupSetting env file "SLACK_BOT_TOKEN").getD ""
    SLACK_APP_TOKEN := (lookupSetting env file "SLACK_APP_TOKEN").getD ""
    SLACK_SIGNING_SECRET := (lookupSetting env file "SLACK_SIGNING_SECRET").getD ""
    AWS_ACCESS_KEY_ID := (lookupSetting env file "AWS_ACCESS_KEY_ID").getD ""
    AWS_SECRET_ACCESS_KEY := (lookupSetting env file "AWS_SECRET_ACCESS_KEY").getD ""
    AWS_REGION := (lookupSetting env file "AWS_REGION").getD "us-east-1"
    SES_EMAIL_ADDRESS := (lookupSetting env file "SES_EMAIL_ADDRESS").getD ""
    SECRET_KEY := (lookupSetting env file "SECRET_KEY").getD "temporary-secret-key-change-in-production"
    ENVIRONMENT := (lookupSetting env file "ENVIRONMENT").getD "development" }

/-- The documented all-defaults record ( the right-hand column of the
configuration table in the specification ). -/
def defaultSettings : Settings :=
  { SUPABASE_URL := ""
    SUPABASE_SERVICE_KEY := ""
    DATABASE_URL := "sqlite:///./test.db"
    ANTHROPIC_API_KEY := ""
    SLACK_BOT_TOKEN := ""
    SLACK_APP_TOKEN := ""
    SLACK_SIGNING_SECRET := ""
    AWS_ACCESS_KEY_ID := ""
    AWS_SECRET_ACCESS_KEY := ""
    AWS_REGION := "us-east-1"
    SES_EMAIL_ADDRESS := ""
    SECRET_KEY := "temporary-secret-key-change-in-production"
    ENVIRONMENT := "development" }

/-- The recognized configuration keys, in declaration order. -/
def fieldNames : List String :=
  ["SUPABASE_URL", "SUPABASE_SERVICE_KEY", "DATABASE_URL", "ANTHROPIC_API_KEY",
   "SLACK_BOT_TOKEN", "SLACK_APP_TOKEN", "SLACK_SIGNING_SECRET",
   "AWS_ACCESS_KEY_ID", "AWS_SECRET_ACCESS_KEY", "AWS_REGION",
   "SES_EMAIL_ADDRESS", "SECRET_KEY", "ENVIRONMENT"]

/-- `a` and `b` agree on every recognized field other than `K`. -/
def agreeExcept (K : String) (a b : Settings) : Prop :=
  (K ≠ "SUPABASE_URL" → a.SUPABASE_URL = b.SUPABASE_URL) ∧
  (K ≠ "SUPABASE_SERVICE_KEY" → a.SUPABASE_SERVICE_KEY = b.SUPABASE_SERVICE_KEY) ∧
  (K ≠ "DATABASE_URL" → a.DATABASE_URL = b.DATABASE_URL) ∧
  (K ≠ "ANTHROPIC_API_KEY" → a.ANTHROPIC_API_KEY = b.ANTHROPIC_API_KEY) ∧
  (K ≠ "SLACK_BOT_TOKEN" → a.SLACK_BOT_TOKEN = b.SLACK_BOT_TOKEN) ∧
  (K ≠ "SLACK_APP_TOKEN" → a.SLACK_APP_TOKEN = b.SLACK_APP_TOKEN) ∧
  (K ≠ "SLACK_SIGNING_SECRET" → a.SLACK_SIGNING_SECRET = b.SLACK_SIGNING_SECRET) ∧
  (K ≠ "AWS_ACCESS_KEY_ID" → a.AWS_ACCESS_KEY_ID = b.AWS_ACCESS_KEY_ID) ∧
  (K ≠ "AWS_SECRET_ACCESS_KEY" → a.AWS_SECRET_ACCESS_KEY = b.AWS_SECRET_ACCESS_KEY) ∧
  (K ≠ "AWS_REGION" → a.AWS_REGION = b.AWS_REGION) ∧
  (K ≠ "SES_EMAIL_ADDRESS" → a.SES_EMAIL_ADDRESS = b.SES_EMAIL_ADDRESS) ∧
  (K ≠ "SECRET_KEY" → a.SECRET_KEY = b.SECRET_KEY) ∧
  (K ≠ "ENVIRONMENT" → a.ENVIRONMENT = b.ENVIRONMENT)

/-! ## Slack handler (`backend/app/integrations/slack_bot.py`) -/

/-- A Python value sitting in a Slack event dictionary: either `None` or a
string. -/
inductive PyVal where
  | none
  | str (s : String)
  deriving Repr, DecidableEq

/-- How a `PyVal` renders inside an f-string: `None` prints as `"None"`,
a string prints as itself. -/
def fstr : PyVal → String
  | .none => "None"
  | .str s => s

/-- The inbound `message` dictionary, restricted to the two keys the handler
reads.  The outer `Option` records whether the key is present at all;
a present key may still map to `PyVal.none`. -/
structure SlackMessage where
  text : Option PyVal
  user : Option PyVal
  deriving Repr, DecidableEq

/-- A side effect performed by the handler: a log record or a `say` reply. -/
inductive Effect where
  | log (s : String)
  | reply (s : String)
  deriving Repr, DecidableEq

/-- `handle_message` from `slack_bot.py`, with its side effects reified in
order.  `message.get("text", "")` defaults to the empty string only when the
key is absent; `message.get("user")` defaults to `None`. -/
def handle_message (message : SlackMessage) : List Effect :=
  let text := message.text.getD (.str "")
  let user := message.user.getD .none
  [Effect.log ("Received message from " ++ fstr user ++ ": " ++ fstr text),
   Effect.reply ("Message received: " ++ fstr text)]

/-! ## HTTP service (`backend/app/main.py`) -/

/-- An HTTP request: method, path, headers and body.  The two handlers in
`main.py` declare no request parameter, so they consult none of these. -/
structure Request where
  method : String
  path : String
  headers : List (String × String)
  reqBody : String

/-- A scoped database session handle, carrying the log of SQL statements
executed through it. -/
structure Session where
  executed : List String
  deriving Repr, DecidableEq

/-- An HTTP response: status code, headers, and a flat JSON-object body
rendered as an association list. -/
structure Response where
  status : Nat
  headers : List (String × String)
  body : List (String × String)
  deriving Repr, DecidableEq

/-- `root` from `main.py`: returns a fixed dictionary; FastAPI serves it
with the default status code 200 and no handler-added headers. -/
def root : Response :=
  { status := 200
    headers := []
    body := [("message", "AI Concierge API"), ("status", "running")] }

/-- `health_check` from `main.py`: receives the acquired session and returns
a fixed dictionary ( status 200 ).  The session is returned unchanged — the
handler body never touches `db`, so no statement is executed through it. -/
def health_check (db : Session) : Response × Session :=
  ({ status := 200
     headers := []
     body := [("status", "healthy"), ("database", "connected")] }, db)

/-- The CORS middleware configuration passed in `main.py`:
`allow_origins=["*"], allow_credentials=True, allow_methods=["*"],
allow_headers=["*"]`. -/
structure CORSConfig where
  allow_origins : List String
  allow_credentials : Bool
  allow_methods : List String
  allow_headers : List String

/-- The concrete configuration from the `add_middleware` call in `main.py`. -/
def corsConfig : CORSConfig :=
  { allow_origins := ["*"]
    allow_credentials := true
    allow_methods := ["*"]
    allow_headers := ["*"] }

/-- The cross-origin headers produced from a configuration. -/
def corsHeaders (cfg : CORSConfig) : List (String × String) :=
  [("Access-Control-Allow-Origin", String.intercalate ", " cfg.allow_origins),
   ("Access-Control-Allow-Credentials", if cfg.allow_credentials then "true" else "false"),
   ("Access-Control-Allow-Methods", String.intercalate ", " cfg.allow_methods),
   ("Access-Control-Allow-Headers", String.intercalate ", " cfg.allow_headers)]

/-- Modelled from the spec: the `CORSMiddleware` implementation lives in the
Starlette library, not in this repository; per the specification, "a
permissive cross-origin policy is applied to every response", so the
middleware is modelled as attaching the configured cross-origin headers to
every response it forwards. -/
def applyCORS (cfg : CORSConfig) (r : Response) : Response :=
  { r with headers := r.headers ++ corsHeaders cfg }

/-- The FastAPI app of `main.py`: route dispatch for the two registered
endpoints, the CORS middleware wrapped around every produced response, and
the `Depends(get_db)` session acquisition for `/health` ( `acq = none` means
acquisition failed; its failure propagation is the provider's ). -/
def app (req : Request) (acq : Option Session) : Option Response :=
  if req.method = "GET" ∧ req.path = "/" then
    some (applyCORS corsConfig root)
  else if req.method = "GET" ∧ req.path = "/health" then
    acq.map fun db => applyCORS corsConfig (health_check db).1
  else
    none

end AthenaConcierge

namespace AthenaConcierge

/-- C2 — with no environment variables and no override file, `Settings()`
succeeds and yields exactly the documented defaults for every key. -/
theorem loadSettings_defaults : loadSettings noEnv noEnv = defaultSettings := by
  rfl

/-- C1 — for any inbound message event with text `T` ( or with the text field
absent ) and any sender field ( absent, `None`, or a string ), `handle_message`
performs exactly one log record followed by exactly one `say` reply and nothing
else; the reply body is `"Message received: " ++ T` ( `"Message received: "`
when the text field is absent ), and the log record is the string containing
the rendered sender and the text. -/
theorem handle_message_ack (t : Option String) (u : Option PyVal) :
    ∃ logRecord,
      handle_message ⟨t.map PyVal.str, u⟩ =
        [Effect.log logRecord, Effect.reply ("Message received: " ++ t.getD "")] ∧
      logRecord = "Received message from " ++ fstr (u.getD .none) ++ ": " ++ t.getD "" := by
  cases t <;> exact ⟨_, rfl, rfl⟩

/-- C9 — when the `"text"` key is present but maps to `None`, the
empty-string default of `message.get("text", "")` does not apply: the
reply body is the f-string rendering `"Message received: None"`. -/
theorem handle_message_none_text (u : Option PyVal) :
    ∃ logRecord,
      handle_message ⟨some PyVal.none, u⟩ =
        [Effect.log logRecord, Effect.reply "Message received: None"] :=
  ⟨_, rfl⟩

/-- C5 — every `GET /` request, whatever its headers or body and whether or
not a database session is obtainable, is answered with status 200 and body
exactly `{"message": "AI Concierge API", "status": "running"}`. -/
theorem root_static (hs : List (String × String)) (bd : String) (acq : Option Session) :
    ∃ r, app ⟨"GET", "/", hs, bd⟩ acq = some r ∧ r.status = 200 ∧
      r.body = [("message", "AI Concierge API"), ("status", "running")] :=
  ⟨_, rfl, rfl, rfl⟩

/-- C6 — every `GET /health` request for which session acquisition succeeds
is answered with status 200 and body exactly
`{"status": "healthy", "database": "connected"}`, and the handler executes no
statement through the session ( the session comes back unchanged ). -/
theorem health_check_static (hs : List (String × String)) (bd : String) (db : Session) :
    ∃ r, app ⟨"GET", "/health", hs, bd⟩ (some db) = some r ∧ r.status = 200 ∧
      r.body = [("status", "healthy"), ("database", "connected")] ∧
      (health_check db).2 = db :=
  ⟨_, rfl, rfl, rfl, rfl⟩

/-- C10 — the response of `health_check` is independent of the session value
passed in: any two sessions yield the same result. -/
theorem health_check_independent (db1 db2 : Session) :
    (health_check db1).1 = (health_check db2).1 := rfl

/-- C7 — every response the app produces ( any request, any endpoint, any
session-acquisition outcome ) carries cross-origin headers permitting any
origin, any method, any header, and credentialed requests. -/
theorem responses_carry_cors (req : Request) (acq : Option Session) (r : Response)
    (h : app req acq = some r) :
    ("Access-Control-Allow-Origin", "*") ∈ r.headers ∧
    ("Access-Control-Allow-Credentials", "true") ∈ r.headers ∧
    ("Access-Control-Allow-Methods", "*") ∈ r.headers ∧
    ("Access-Control-Allow-Headers", "*") ∈ r.headers := by
  unfold app at h
  split at h
  · injection h with h'
    subst h'
    decide
  · split at h
    · rw [Option.map_eq_some'] at h
      obtain ⟨db, -, h'⟩ := h
      subst h'
      refine ⟨?_, ?_, ?_, ?_⟩ <;>
        simp [applyCORS, corsHeaders, corsConfig, health_check] <;>
        rfl
    · exact absurd h (by simp)

/-- C7 witness — the `GET /` response concretely carries all four headers. -/
theorem responses_carry_cors_witness :
    ("Access-Control-Allow-Origin", "*") ∈ (applyCORS corsConfig root).headers ∧
    ("Access-Control-Allow-Credentials", "true") ∈ (applyCORS corsConfig root).headers ∧
    ("Access-Control-Allow-Methods", "*") ∈ (applyCORS corsConfig root).headers ∧
    ("Access-Control-Allow-Headers", "*") ∈ (applyCORS corsConfig root).headers :=
  responses_carry_cors ⟨"GET", "/", [], ""⟩ none (applyCORS corsConfig root) rfl

/-- C3 counterexample — setting the environment variable `AWS_REGION` to the
empty string yields an empty `AWS_REGION` field, refuting "the region field
is never empty, regardless of input". -/
theorem aws_region_empty_cex :
    (loadSettings (singleEnv "AWS_REGION" "") noEnv).AWS_REGION = "" := rfl

/-- C3 amended — whenever neither the environment nor the override file
supplies the empty string for `AWS_REGION`, the loaded region field is
non-empty ( in particular, when the key is unset it defaults to
`"us-east-1"` ). -/
theorem aws_region_nonempty (env file : Env)
    (h : lookupSetting env file "AWS_REGION" ≠ some "") :
    (loadSettings env file).AWS_REGION ≠ "" := by
  show (lookupSetting env file "AWS_REGION").getD "us-east-1" ≠ ""
  cases hm : lookupSetting env file "AWS_REGION" with
  | none => decide
  | some v =>
    simp only [Option.getD_some]
    intro hv
    exact h (by rw [hm, hv])

/-- C3 amended, witness — at the empty environment the hypothesis holds and
the region is non-empty. -/
theorem aws_region_nonempty_witness :
    lookupSetting noEnv noEnv "AWS_REGION" ≠ some "" ∧
    (loadSettings noEnv noEnv).AWS_REGION ≠ "" :=
  ⟨by decide, aws_region_nonempty noEnv noEnv (by decide)⟩

/-- C4 — loading with exactly one recognized key `K` set ( to any value `V`,
no other environment variable, no override file ) yields a record that agrees
with the all-defaults record on every field other than `K`. -/
theorem single_override_frame (K V : String) (hK : K ∈ fieldNames) :
    agreeExcept K (loadSettings (singleEnv K V) noEnv) defaultSettings := by
  unfold fieldNames at hK
  fin_cases hK <;>
    refine ⟨?_, ?_, ?_, ?_, ?_, ?_, ?_, ?_, ?_, ?_, ?_, ?_, ?_⟩ <;>
    intro h <;>
    first
    | rfl
    | exact absurd rfl h

/-- C4 witness — overriding only `DATABASE_URL` leaves every other field at
its default. -/
theorem single_override_frame_witness :
    "DATABASE_URL" ∈ fieldNames ∧
    agreeExcept "DATABASE_URL"
      (loadSettings (singleEnv "DATABASE_URL" "postgresql://db") noEnv)
      defaultSettings :=
  ⟨by decide, single_override_frame "DATABASE_URL" "postgresql://db" (by decide)⟩

/-- C8 — key matching is exact-case: supplying a key `K` that is a
letter-case variant of a recognized key `F` but differs from it ( e.g. the
lowercase form ) sets nothing; the loaded record is exactly the defaults. -/
theorem case_mismatch_keeps_defaults (K F V : String)
    (hF : F ∈ fieldNames)
    (hcase : F.data.map Char.toLower = K.data.map Char.toLower)
    (hne : K ≠ F) :
    loadSettings (singleEnv K V) noEnv = defaultSettings := by
  have hK : K ∉ fieldNames := by
    intro hKmem
    have hnd : (fieldNames.map fun s => s.data.map Char.toLower).Nodup := by decide
    exact hne (List.inj_on_of_nodup_map hnd hKmem hF hcase.symm)
  have h : ∀ F', F' ∈ fieldNames → lookupSetting (singleEnv K V) noEnv F' = none := by
    intro F' hF'
    have hFK : ¬ F' = K := fun hFK => hK (hFK ▸ hF')
    simp [lookupSetting, singleEnv, noEnv, hFK]
  unfold loadSettings defaultSettings
  rw [h "SUPABASE_URL" (by decide), h "SUPABASE_SERVICE_KEY" (by decide),
      h "DATABASE_URL" (by decide), h "ANTHROPIC_API_KEY" (by decide),
      h "SLACK_BOT_TOKEN" (by decide), h "SLACK_APP_TOKEN" (by decide),
      h "SLACK_SIGNING_SECRET" (by decide), h "AWS_ACCESS_KEY_ID" (by decide),
      h "AWS_SECRET_ACCESS_KEY" (by decide), h "AWS_REGION" (by decide),
      h "SES_EMAIL_ADDRESS" (by decide), h "SECRET_KEY" (by decide),
      h "ENVIRONMENT" (by decide)]
  rfl

/-- C8 witness — the lowercase variant of `SUPABASE_URL` sets nothing. -/
theorem case_mismatch_keeps_defaults_witness :
    "SUPABASE_URL" ∈ fieldNames ∧
    ("SUPABASE_URL".data.map Char.toLower = "supabase_url".data.map Char.toLower) ∧
    "supabase_url" ≠ "SUPABASE_URL" ∧
    loadSettings (singleEnv "supabase_url" "https://example.org") noEnv = defaultSettings :=
  ⟨by decide, by decide, by decide,
   case_mismatch_keeps_defaults "supabase_url" "SUPABASE_URL" "https://example.org"
     (by decide) (by decide) (by decide)⟩

end AthenaConcierge
